import Mathlib

/-!
Rule and Agent Evaluation Engine of the Ghana PCA application: a shallow
embedding in Lean of the core data model and operations, together with
theorems about them.

Embedded source components:

* the four violation-detection agents of
  `src/lib/services-backup/ghana-minister-report-service.ts`
  (`ECOWASOriginVerificationAgent`, `PetroleumATGAnalyzer`,
  `GhanaTaxComplianceAgent`, `TSAPaymentReconciliationAgent`);
* the audit orchestrator `GhanaAuditRunner` of
  `src/lib/services/production-audit-engine.ts`
  (`executeAudit`, `executeParallel`, `executeSequential`,
  `processDeclaration`, `shouldAgentRun`, `filterDeclarations`,
  `calculateGhanaMetrics`, `chunkArray`, `cancelExecution`);
* the rule-pack scoring pass `GhanaRulePackService.evaluateDeclaration`.

Conventions of the embedding:

* JavaScript numbers are modelled as exact rationals; all arithmetic the
  source performs on them (tax rates, tolerances, risk scores) stays inside
  exact decimal fractions.
* A possibly-absent field of a JS object is an `Option`; JS truthiness
  tests on such fields are spelled out explicitly (`undefined`, `0` and the
  empty string are falsy; an empty array and every other object are truthy).
* Wall-clock quantities (`Date.now()` differences) are abstracted to `0`.
  They feed only the `processingTime` fields, which none of the aggregates
  treated here reads.
* Free-text `description`, `evidence` and `recommendation` strings keep
  their constant parts; JS numeric formatting inside template literals
  (`toFixed`, `toUpperCase`) is not reproduced. No theorem below inspects
  these fields beyond the machine-readable `type` and `severity` tags.
-/

namespace PCA

/-- JS truthiness of a possibly-absent string value: `undefined` and the
empty string are falsy. -/
def strTruthy : Option String → Bool
  | none => false
  | some s => !(s == "")

/-- JS truthiness of a possibly-absent numeric value: `undefined` and `0`
are falsy. -/
def numTruthy : Option ℚ → Bool
  | none => false
  | some q => !(q == 0)

/-- JS `x || y` where `x` is a possibly-absent numeric value: `undefined`
and `0` fall through to `y`. -/
def orFalsy (x : Option ℚ) (y : ℚ) : ℚ :=
  match x with
  | some v => if v == 0 then y else v
  | none => y

/-- JS `x || y` where `x` is a possibly-absent string: `undefined` and the
empty string fall through to `y`. -/
def strOr (x : Option String) (y : String) : String :=
  match x with
  | some s => if s == "" then y else s
  | none => y

/-- JS `x >= b` where the left operand may be `undefined`: any comparison
with `undefined` is `false`. -/
def jsGe (x : Option ℚ) (b : ℚ) : Bool :=
  match x with
  | some v => decide (b ≤ v)
  | none => false

/-- JS `s.startsWith(pat)` (also the anchored head of the TIN and TSA
regex checks), as a prefix test on the character lists of the strings. -/
def strStartsWith (s pat : String) : Bool :=
  pat.data.isPrefixOf s.data

/-- ATG tank-gauge reading object attached to a petroleum declaration
(`declaration.atgReadings` in the source). -/
structure AtgReadings where
  finalVolume : ℚ
deriving Repr, DecidableEq

/-- Stated tax breakdown of a declaration (`declaration.taxes`). Each line
may be absent; the agents read an absent line as `0`. -/
structure TaxBreakdown where
  vat : Option ℚ := none
  getFund : Option ℚ := none
  nhil : Option ℚ := none
  covid : Option ℚ := none
  importDuty : Option ℚ := none
  excise : Option ℚ := none
deriving Repr, DecidableEq

/-- Bank payment confirmation object (`declaration.paymentConfirmation`). -/
structure PaymentConfirmation where
  amount : ℚ
  verified : Bool
deriving Repr, DecidableEq

/-- A customs declaration record, the read-only input of every agent and of
the orchestrator. Field types follow how the source reads each field:
fields the source guards with truthiness or optional-chaining are
`Option`s. Dates are modelled as numeric timestamps (the source compares
`new Date(...)` values, an order-preserving reading of the date strings). -/
structure Declaration where
  id : String := ""
  declarationId : String := ""
  hsCode : String := ""
  originCountry : String := ""
  destinationCountry : String := ""
  transitCountries : Option (List String) := none
  ecowasOrigin : Bool := false
  value : ℚ := 0
  weight : ℚ := 0
  volume : Option ℚ := none
  atgApplicable : Bool := false
  atgCertificate : Option String := none
  atgReadings : Option AtgReadings := none
  qualityCertificate : Option String := none
  taxes : Option TaxBreakdown := none
  declarantTin : Option String := none
  exemptions : Option (List String) := none
  paymentStatus : Option String := none
  tsaReference : Option String := none
  paymentConfirmation : Option PaymentConfirmation := none
  currency : String := "GHS"
  exchangeRate : Option ℚ := none
  paymentMethod : Option String := none
  documents : Option (List String) := none
  sector : Option String := none
  shipmentId : String := ""
  date : ℚ := 0
  riskScore : Option ℚ := none
deriving Repr, DecidableEq

/-- JS `declaration.id || declaration.declarationId`, the declaration
reference every agent stores in its result. -/
def jsId (d : Declaration) : String :=
  if d.id == "" then d.declarationId else d.id

/-- Severity enumeration of a finding (`severity` in `AgentResultSchema`). -/
inductive Severity
  | low
  | medium
  | high
  | critical
deriving Repr, DecidableEq

/-- One specific issue surfaced by an agent against a declaration
(an element of `findings` in `AgentResultSchema`). -/
structure Finding where
  type : String
  description : String
  severity : Severity
  evidence : List String
  recommendation : String
deriving Repr, DecidableEq

/-- The free-form `metadata` record of an agent result, as a record of the
optional keys the four agents write and the aggregation pass reads. A key
an agent does not set is `none` (JS `undefined`). -/
structure Metadata where
  note : Option String := none
  ecowasCompliance : Option Bool := none
  verifiedOrigin : Option String := none
  riskFactors : Option (List String) := none
  petroleumType : Option String := none
  atgCompliant : Option Bool := none
  taxCompliant : Option Bool := none
  estimatedShortfall : Option ℚ := none
  totalTaxLiability : Option ℚ := none
  taxGap : Option ℚ := none
  complianceScore : Option ℚ := none
  tsaStatus : Option String := none
  reconciledAmount : Option ℚ := none
  paymentMethod : Option String := none
  recoveryAmount : Option ℚ := none
  sector : Option String := none
deriving Repr, DecidableEq

/-- Output of one agent run against one declaration (`AgentResultSchema`).
Its fields are exactly the schema fields; in particular there is a numeric
`riskScore` and there is no `riskLevel` field. -/
structure AgentResult where
  agentId : String
  agentType : String
  declarationId : String
  hasViolation : Bool
  confidence : ℚ
  riskScore : ℚ
  findings : List Finding
  processingTime : ℚ
  metadata : Option Metadata
deriving Repr, DecidableEq

/-- `GhanaAuditAgent.generateResult`, the shared result constructor of the
agent base class. -/
def generateResult (agentId agentType declarationId : String)
    (hasViolation : Bool) (confidence riskScore : ℚ) (findings : List Finding)
    (processingTime : ℚ) (metadata : Option Metadata) : AgentResult :=
  { agentId := agentId
    agentType := agentType
    declarationId := declarationId
    hasViolation := hasViolation
    confidence := confidence
    riskScore := riskScore
    findings := findings
    processingTime := processingTime
    metadata := metadata }

/-! Embedding of `ECOWASOriginVerificationAgent`
(`src/lib/services-backup/ghana-minister-report-service.ts`). -/

namespace ECOWASOriginVerificationAgent

/-- Constructor argument `id` of the agent instance. -/
def agentId : String := "ecowas-origin-001"

/-- Constructor argument `type` of the agent instance. -/
def agentType : String := "ecowas-origin"

/-- The `ecowasCountries` list of `analyze`. -/
def ecowasCountries : List String :=
  ["NG", "BJ", "CI", "BF", "ML", "NE", "SN", "SL", "TG"]

/-- The `highRiskPatterns` list of `isHighRiskHSCode`. -/
def highRiskPatterns : List String :=
  ["5201", "5203", "6203", "6204", "6403"]

/-- `ECOWASOriginVerificationAgent.isHighRiskHSCode`. -/
def isHighRiskHSCode (hsCode : String) : Bool :=
  highRiskPatterns.any (fun pattern => strStartsWith hsCode pattern)

/-- The anonymous object returned by `checkSuspiciousPatterns`. -/
structure SuspiciousPattern where
  description : String
  evidence : List String
deriving Repr, DecidableEq

/-- `ECOWASOriginVerificationAgent.checkSuspiciousPatterns`: `null` is
`none`. -/
def checkSuspiciousPatterns (d : Declaration) : Option SuspiciousPattern :=
  if d.destinationCountry == "GH" && d.originCountry == "CN" && d.ecowasOrigin then
    some { description :=
             "China to Ghana shipment claiming ECOWAS origin - possible route diversion"
           evidence := ["Origin: China", "Destination: Ghana", "ECOWAS claim: true"] }
  else if (match d.transitCountries with
           | some ts => ts.contains "AE"
           | none => false) && d.ecowasOrigin then
    some { description := "Transshipment through UAE with ECOWAS origin claim"
           evidence := ["Transit: UAE", "ECOWAS claim: true"] }
  else
    none

/-- The `marketValueMultipliers` table of `isUnderValued`, in the source's
key order (`Object.entries` preserves insertion order). -/
def marketValueMultipliers : List (String × ℚ) :=
  [("5201", 1.3), ("5203", 1.4), ("6203", 1.5), ("6204", 1.5), ("6403", 1.6)]

/-- `ECOWASOriginVerificationAgent.isUnderValued`: the source returns at
the first table entry whose pattern matches the HS code, and `false` when
none matches. -/
def isUnderValued (d : Declaration) : Bool :=
  match marketValueMultipliers.find? (fun p => strStartsWith d.hsCode p.1) with
  | some p => decide (d.value < d.value * p.2 * 0.8)
  | none => false

/-- The document check of `verifyDocuments`:
`declaration.documents && declaration.documents.includes('certificate-of-origin')`,
with an absent `documents` array falsy and an empty one truthy. -/
def hasCertificateOfOrigin (d : Declaration) : Bool :=
  match d.documents with
  | some docs => docs.contains "certificate-of-origin"
  | none => false

/-- `ECOWASOriginVerificationAgent.verifyDocuments`. -/
def verifyDocuments (d : Declaration) : List Finding :=
  if !(hasCertificateOfOrigin d) then
    [{ type := "missing-document"
       description := "Certificate of origin not found for ECOWAS claim"
       severity := Severity.high
       evidence := ["ECOWAS origin claim without supporting certificate"]
       recommendation := "Request valid certificate of origin" }]
  else []

/-- `ECOWASOriginVerificationAgent.analyze`. The sequence of
`findings.push` calls is rendered as list concatenation in source order;
each risk-score increment is the summand guarded by the same condition as
in the source. `confidence` starts at `0.85` and is raised to `0.95`
exactly in the origin-fraud branch. -/
def analyze (d : Declaration) : AgentResult :=
  let originFraud : Bool := d.ecowasOrigin && !(ecowasCountries.contains d.originCountry)
  let originFindings : List Finding :=
    if originFraud then
      [{ type := "origin-fraud"
         description := "Non-ECOWAS country claimed as ECOWAS origin"
         severity := Severity.critical
         evidence := ["Origin country: " ++ d.originCountry, "ECOWAS claim: true"]
         recommendation := "Verify certificate of origin and apply appropriate duties" }]
    else []
  let confidence : ℚ := if originFraud then 0.95 else 0.85
  let suspiciousFindings : List Finding :=
    if d.ecowasOrigin && !(d.hsCode == "") && isHighRiskHSCode d.hsCode then
      match checkSuspiciousPatterns d with
      | some sp =>
          [{ type := "suspicious-pattern"
             description := sp.description
             severity := Severity.high
             evidence := sp.evidence
             recommendation := "Enhanced verification required for this shipment" }]
      | none => []
    else []
  let underValuationFindings : List Finding :=
    if d.ecowasOrigin && !(d.value == 0) && isUnderValued d then
      [{ type := "under-valuation"
         description := "ECOWAS shipment appears to be under-valued"
         severity := Severity.medium
         evidence := ["Declared value", "Market value range"]
         recommendation := "Request supporting documentation for value verification" }]
    else []
  let documentIssues : List Finding := verifyDocuments d
  let findings := originFindings ++ suspiciousFindings ++ underValuationFindings ++ documentIssues
  let hasViolation :=
    originFraud || !suspiciousFindings.isEmpty || !underValuationFindings.isEmpty
  let riskScore : ℚ :=
    (if originFraud then 40 else 0)
      + (if !suspiciousFindings.isEmpty then 25 else 0)
      + (if !underValuationFindings.isEmpty then 20 else 0)
      + (documentIssues.length : ℚ) * 10
  let riskScore := min 100 riskScore
  generateResult agentId agentType (jsId d) hasViolation confidence riskScore findings 0
    (some { ecowasCompliance := some (!hasViolation)
            verifiedOrigin := some d.originCountry
            riskFactors := some (findings.map (fun f => f.type)) })

end ECOWASOriginVerificationAgent

/-! Embedding of `PetroleumATGAnalyzer`. -/

namespace PetroleumATGAnalyzer

/-- Constructor argument `id` of the agent instance. -/
def agentId : String := "petroleum-atg-002"

/-- Constructor argument `type` of the agent instance. -/
def agentType : String := "petroleum-atg"

/-- The `petroleumHSCodes` list of `analyze`. -/
def petroleumHSCodes : List String := ["2709", "2710", "2711", "2713"]

/-- The `isPetroleum` test of `analyze`. -/
def isPetroleum (d : Declaration) : Bool :=
  petroleumHSCodes.any (fun code => strStartsWith d.hsCode code)

/-- `PetroleumATGAnalyzer.checkATGCompliance`. The reading check compares
`atgReadings.finalVolume < declaration.volume * 0.95`; when `volume` is
absent the JS comparison against `undefined * 0.95` (`NaN`) is `false`,
so no issue is raised. -/
def checkATGCompliance (d : Declaration) : List Finding :=
  let certificateIssues : List Finding :=
    if !(strTruthy d.atgCertificate) then
      [{ type := "missing-atg-certificate"
         description := "ATG certificate not provided"
         severity := Severity.critical
         evidence := ["Petroleum product requires ATG certification"]
         recommendation := "Require ATG certificate before clearance" }]
    else []
  let readingIssues : List Finding :=
    match d.atgReadings, d.volume with
    | some readings, some expectedVolume =>
        if readings.finalVolume < expectedVolume * 0.95 then
          [{ type := "atg-shortfall"
             description := "ATG shows a shortfall in liters"
             severity := Severity.critical
             evidence := ["Expected liters", "ATG reading liters"]
             recommendation := "Investigate potential theft or diversion" }]
        else []
    | _, _ => []
  certificateIssues ++ readingIssues

/-- `PetroleumATGAnalyzer.analyzeVolumeWeight` (only called when both
`volume` and `weight` are truthy). -/
def analyzeVolumeWeight (d : Declaration) : List Finding :=
  match d.volume with
  | some volume =>
      let expectedWeight := volume * 0.85
      let weightTolerance := expectedWeight * 0.1
      if |d.weight - expectedWeight| > weightTolerance then
        [{ type := "volume-weight-discrepancy"
           description := "Weight does not match volume for petroleum product"
           severity := Severity.high
           evidence := ["Volume liters", "Expected weight kg", "Declared weight kg"]
           recommendation := "Verify measurements and investigate discrepancy" }]
      else []
  | none => []

/-- The `exciseRates` table of `calculateExciseDuty`, in source key order. -/
def exciseRates : List (String × ℚ) :=
  [("270900", 0.20), ("271019", 0.15), ("271112", 0.10), ("271119", 0.10)]

/-- `PetroleumATGAnalyzer.calculateExciseDuty`: the source returns at the
first table entry whose code matches the HS code, and `0` otherwise. -/
def calculateExciseDuty (d : Declaration) : ℚ :=
  match exciseRates.find? (fun p => strStartsWith d.hsCode p.1) with
  | some p => d.value * p.2
  | none => 0

/-- `PetroleumATGAnalyzer.checkPetroleumTaxes`: one `tax-discrepancy`
finding per expected line differing from the stated line by more than the
5 percent tolerance, in source line order; nothing when the declaration
has no stated tax breakdown. -/
def checkPetroleumTaxes (d : Declaration) : List Finding :=
  match d.taxes with
  | none => []
  | some taxes =>
      let lines : List (String × ℚ × ℚ) :=
        [("vat", d.value * 0.15, taxes.vat.getD 0),
         ("getFund", d.value * 0.025, taxes.getFund.getD 0),
         ("nhil", d.value * 0.025, taxes.nhil.getD 0),
         ("covid", d.value * 0.01, taxes.covid.getD 0),
         ("excise", calculateExciseDuty d, taxes.excise.getD 0)]
      lines.filterMap (fun line =>
        let expected := line.2.1
        let actual := line.2.2
        let tolerance := expected * 0.05
        if |actual - expected| > tolerance then
          some { type := "tax-discrepancy"
                 description := line.1 ++ " tax calculation incorrect"
                 severity := Severity.medium
                 evidence := ["Expected GHS", "Actual GHS"]
                 recommendation := "Recalculate taxes and recover difference" }
        else none)

/-- `PetroleumATGAnalyzer.checkQualitySpecifications`. -/
def checkQualitySpecifications (d : Declaration) : List Finding :=
  if !(strTruthy d.qualityCertificate) then
    [{ type := "missing-quality-certificate"
       description := "Quality certificate not provided for petroleum product"
       severity := Severity.medium
       evidence := ["Petroleum products require quality certification"]
       recommendation := "Request quality analysis certificate" }]
  else []

/-- The `types` table of `identifyPetroleumType`, in source key order. -/
def petroleumTypes : List (String × String) :=
  [("270900", "Crude Petroleum Oil"), ("271019", "Other Oils"),
   ("271112", "Propane"), ("271119", "Other LPG"),
   ("271320", "Petroleum Bitumen")]

/-- `PetroleumATGAnalyzer.identifyPetroleumType`. -/
def identifyPetroleumType (hsCode : String) : String :=
  match petroleumTypes.find? (fun p => strStartsWith hsCode p.1) with
  | some p => p.2
  | none => "Unknown Petroleum Product"

/-- `PetroleumATGAnalyzer.calculateShortfall`: guarded by the truthiness
of `atgReadings` and `volume` (so in particular `volume = 0` yields `0`,
avoiding the division). -/
def calculateShortfall (d : Declaration) : ℚ :=
  match d.atgReadings, d.volume with
  | some readings, some volume =>
      if volume == 0 then 0
      else
        let shortfall := volume - readings.finalVolume
        if shortfall > 0 then shortfall * d.value / volume else 0
  | _, _ => 0

/-- JS `String.prototype.includes` (substring containment), used for the
`atgCompliant` metadata flag. -/
def strIncludes (s sub : String) : Bool := decide (sub.data <:+: s.data)

/-- `PetroleumATGAnalyzer.analyze`. For a non-petroleum HS code the source
returns immediately with no violation, confidence `1.0`, risk `0` and no
findings. Otherwise findings and risk-score summands accumulate in source
order, the risk score is capped at `100`, and confidence is derived from
the capped risk score (`0.96` above `70`, `0.88` above `40`, else the
initial `0.9`). -/
def analyze (d : Declaration) : AgentResult :=
  if !(isPetroleum d) then
    generateResult agentId agentType (jsId d) false 1.0 0 [] 0
      (some { note := some "Not a petroleum shipment" })
  else
    let atgIssues : List Finding := checkATGCompliance d
    let atgFindings : List Finding :=
      if d.atgApplicable then atgIssues
      else
        [{ type := "atg-not-applied"
           description := "ATG monitoring not applied to petroleum shipment"
           severity := Severity.high
           evidence := ["HS Code indicates petroleum product", "ATG flag: false"]
           recommendation := "Apply ATG monitoring for all petroleum imports" }]
    let atgRisk : ℚ :=
      if d.atgApplicable then (atgIssues.length : ℚ) * 15 else 30
    let hasViolation : Bool :=
      if d.atgApplicable then !atgIssues.isEmpty else true
    let volumeWeightIssues : List Finding :=
      if numTruthy d.volume && !(d.weight == 0) then analyzeVolumeWeight d else []
    let taxIssues : List Finding := checkPetroleumTaxes d
    let qualityIssues : List Finding := checkQualitySpecifications d
    let findings :=
      atgFindings ++ volumeWeightIssues ++ taxIssues ++ qualityIssues
    let riskScore : ℚ :=
      atgRisk + (volumeWeightIssues.length : ℚ) * 20
        + (taxIssues.length : ℚ) * 10 + (qualityIssues.length : ℚ) * 15
    let riskScore := min 100 riskScore
    let confidence : ℚ :=
      if riskScore > 70 then 0.96 else if riskScore > 40 then 0.88 else 0.9
    generateResult agentId agentType (jsId d) hasViolation confidence riskScore findings 0
      (some { petroleumType := some (identifyPetroleumType d.hsCode)
              atgCompliant := some (!(findings.any (fun f => strIncludes f.type "atg")))
              taxCompliant := some taxIssues.isEmpty
              estimatedShortfall := some (calculateShortfall d) })

end PetroleumATGAnalyzer

/-! Embedding of `GhanaTaxComplianceAgent`. -/

namespace GhanaTaxComplianceAgent

/-- Constructor argument `id` of the agent instance. -/
def agentId : String := "tax-compliance-003"

/-- Constructor argument `type` of the agent instance. -/
def agentType : String := "tax-compliance"

/-- `GhanaTaxComplianceAgent.validateAllTaxes`: one `tax-calculation-error`
finding per expected line differing from the stated line by more than the
2 percent tolerance (severity `high` when the difference exceeds 10 percent
of the expected amount, else `medium`), in source line order; a single
critical `missing-tax-breakdown` finding when no breakdown is stated. -/
def validateAllTaxes (d : Declaration) : List Finding :=
  match d.taxes with
  | some taxes =>
      let lines : List (String × ℚ × ℚ) :=
        [("vat", d.value * 0.15, taxes.vat.getD 0),
         ("getFund", d.value * 0.025, taxes.getFund.getD 0),
         ("nhil", d.value * 0.025, taxes.nhil.getD 0),
         ("covid", d.value * 0.01, taxes.covid.getD 0),
         ("importDuty", if d.ecowasOrigin then 0 else d.value * 0.05,
          taxes.importDuty.getD 0)]
      lines.filterMap (fun line =>
        let expected : ℚ := line.2.1
        let actual : ℚ := line.2.2
        let tolerance : ℚ := expected * 0.02
        if |actual - expected| > tolerance then
          let difference : ℚ := |actual - expected|
          some { type := "tax-calculation-error"
                 description := line.1 ++ " calculation error"
                 severity := if difference > expected * 0.1 then Severity.high
                             else Severity.medium
                 evidence := ["Expected GHS", "Declared GHS", "Difference GHS"]
                 recommendation := "Recalculate tax and recover difference" }
        else none)
  | none =>
      [{ type := "missing-tax-breakdown"
         description := "Tax breakdown not provided"
         severity := Severity.critical
         evidence := ["No tax information found in declaration"]
         recommendation := "Require complete tax calculation breakdown" }]

/-- The TIN pattern `TIN` followed by 7 to 10 digits
(regex `TIN\d{7,10}` anchored at both ends). -/
def tinFormatOk (tin : String) : Bool :=
  strStartsWith tin "TIN"
    && (let digits := tin.drop 3
        decide (7 ≤ digits.length) && decide (digits.length ≤ 10)
          && digits.toList.all Char.isDigit)

/-- `GhanaTaxComplianceAgent.validateTIN`: a falsy (absent or empty) TIN
yields the critical `missing-tin` finding, a present but malformed TIN the
high `invalid-tin-format` finding. -/
def validateTIN (d : Declaration) : List Finding :=
  if !(strTruthy d.declarantTin) then
    [{ type := "missing-tin"
       description := "Declarant TIN not provided"
       severity := Severity.critical
       evidence := ["TIN is required for all customs declarations"]
       recommendation := "Require valid TIN before processing" }]
  else
    match d.declarantTin with
    | some tin =>
        if !(tinFormatOk tin) then
          [{ type := "invalid-tin-format"
             description := "TIN format is invalid"
             severity := Severity.high
             evidence := ["Provided TIN: " ++ tin]
             recommendation := "TIN must be in format: TIN followed by 7-10 digits" }]
        else []
    | none => []

/-- The `validExemptions` whitelist of `validateExemptions`. -/
def validExemptions : List String :=
  ["diplomatic", "un-agency", "government", "educational", "religious", "charitable"]

/-- `GhanaTaxComplianceAgent.validateExemptions`: one `invalid-exemption`
finding per claimed exemption outside the whitelist. -/
def validateExemptions (d : Declaration) : List Finding :=
  match d.exemptions with
  | some exemptions =>
      if decide (0 < exemptions.length) then
        exemptions.filterMap (fun exemption =>
          if !(validExemptions.contains exemption) then
            some { type := "invalid-exemption"
                   description := "Invalid exemption claim: " ++ exemption
                   severity := Severity.high
                   evidence := ["Claimed exemption: " ++ exemption]
                   recommendation := "Verify exemption eligibility and documentation" }
          else none)
      else []
  | none => []

/-- `GhanaTaxComplianceAgent.verifyPayments`. -/
def verifyPayments (d : Declaration) : List Finding :=
  if !(d.paymentStatus == some "paid") && d.value > 100000 then
    [{ type := "unpaid-high-value"
       description := "High-value shipment with unpaid taxes"
       severity := Severity.high
       evidence := ["Value", "Payment status"]
       recommendation := "Require payment confirmation before clearance" }]
  else []

/-- `GhanaTaxComplianceAgent.calculateTotalTaxLiability`: the sum of the
recomputed VAT, GETFund, NHIL, COVID levy and import-duty lines (the duty
is `0` for an ECOWAS-origin declaration, else 5 percent of value). -/
def calculateTotalTaxLiability (d : Declaration) : ℚ :=
  d.value * 0.15 + d.value * 0.025 + d.value * 0.025 + d.value * 0.01
    + (if d.ecowasOrigin then 0 else d.value * 0.05)

/-- The sum of the stated tax lines (`Object.values(declaration.taxes)`
reduced with addition; only the keys present on the object contribute). -/
def statedTaxTotal (taxes : TaxBreakdown) : ℚ :=
  ([taxes.vat, taxes.getFund, taxes.nhil, taxes.covid, taxes.importDuty,
    taxes.excise].filterMap id).sum

/-- `GhanaTaxComplianceAgent.calculateTaxGap`. -/
def calculateTaxGap (d : Declaration) : ℚ :=
  match d.taxes with
  | none => calculateTotalTaxLiability d
  | some taxes =>
      let expected := calculateTotalTaxLiability d
      let paid := statedTaxTotal taxes
      max 0 (expected - paid)

/-- `GhanaTaxComplianceAgent.analyze`: findings and risk-score summands in
source order, risk score capped at `100`, `hasViolation` exactly when the
findings list is non-empty, confidence fixed at `1.0`. -/
def analyze (d : Declaration) : AgentResult :=
  let taxIssues := validateAllTaxes d
  let tinIssues := validateTIN d
  let exemptionIssues := validateExemptions d
  let paymentIssues := verifyPayments d
  let findings := taxIssues ++ tinIssues ++ exemptionIssues ++ paymentIssues
  let riskScore : ℚ :=
    (taxIssues.length : ℚ) * 12 + (tinIssues.length : ℚ) * 15
      + (exemptionIssues.length : ℚ) * 20 + (paymentIssues.length : ℚ) * 10
  let hasViolation := decide (0 < findings.length)
  let riskScore := min 100 riskScore
  generateResult agentId agentType (jsId d) hasViolation 1.0 riskScore findings 0
    (some { totalTaxLiability := some (calculateTotalTaxLiability d)
            taxGap := some (calculateTaxGap d)
            complianceScore := some (max 0 (100 - riskScore)) })

end GhanaTaxComplianceAgent

/-! Embedding of `TSAPaymentReconciliationAgent`. -/

namespace TSAPaymentReconciliationAgent

/-- Constructor argument `id` of the agent instance. -/
def agentId : String := "tsa-reconciliation-004"

/-- Constructor argument `type` of the agent instance. -/
def agentType : String := "tsa-reconciliation"

/-- The TSA reference pattern `TSA` followed by exactly 12 digits
(regex `TSA\d{12}` anchored at both ends),
`TSAPaymentReconciliationAgent.isValidTSAReference`. -/
def isValidTSAReference (reference : String) : Bool :=
  strStartsWith reference "TSA"
    && (let digits := reference.drop 3
        decide (digits.length = 12) && digits.toList.all Char.isDigit)

/-- `TSAPaymentReconciliationAgent.verifyTSAPayments`: the source runs two
independent checks, a missing-reference check on falsy `tsaReference` and a
format check on a truthy one. -/
def verifyTSAPayments (d : Declaration) : List Finding :=
  let missingIssues : List Finding :=
    if !(strTruthy d.tsaReference) then
      [{ type := "missing-tsa-reference"
         description := "TSA payment reference not found"
         severity := Severity.critical
         evidence := ["All payments must be processed through TSA"]
         recommendation := "Generate TSA reference and process payment" }]
    else []
  let formatIssues : List Finding :=
    match d.tsaReference with
    | some reference =>
        if !(reference == "") && !(isValidTSAReference reference) then
          [{ type := "invalid-tsa-reference"
             description := "TSA reference format is invalid"
             severity := Severity.high
             evidence := ["Reference: " ++ reference]
             recommendation := "Verify TSA reference with Bank of Ghana" }]
        else []
    | none => []
  missingIssues ++ formatIssues

/-- `TSAPaymentReconciliationAgent.calculateTotalTaxLiability` (a verbatim
duplicate, in the source, of the tax agent's private method). -/
def calculateTotalTaxLiability (d : Declaration) : ℚ :=
  d.value * 0.15 + d.value * 0.025 + d.value * 0.025 + d.value * 0.01
    + (if d.ecowasOrigin then 0 else d.value * 0.05)

/-- `TSAPaymentReconciliationAgent.reconcileBankPayments`. -/
def reconcileBankPayments (d : Declaration) : List Finding :=
  match d.paymentConfirmation with
  | some confirmation =>
      let expectedAmount := calculateTotalTaxLiability d
      if |confirmation.amount - expectedAmount| > expectedAmount * 0.01 then
        [{ type := "payment-mismatch"
           description := "Payment amount does not match tax liability"
           severity := Severity.high
           evidence := ["Expected GHS", "Paid GHS"]
           recommendation := "Investigate payment discrepancy" }]
      else []
  | none => []

/-- `TSAPaymentReconciliationAgent.validateExchangeRates`: checked only for
a non-GHS currency with a truthy exchange rate, against the fixed official
rate `12.5` with 2 percent tolerance. -/
def validateExchangeRates (d : Declaration) : List Finding :=
  if !(d.currency == "GHS") && numTruthy d.exchangeRate then
    match d.exchangeRate with
    | some rate =>
        if |rate - 12.5| > 12.5 * 0.02 then
          [{ type := "exchange-rate-discrepancy"
             description := "Exchange rate differs from official rate"
             severity := Severity.medium
             evidence := ["Official rate", "Used rate"]
             recommendation := "Use Bank of Ghana official exchange rate" }]
        else []
    | none => []
  else []

/-- `TSAPaymentReconciliationAgent.getTSAStatus`. -/
def getTSAStatus (d : Declaration) : String :=
  if !(strTruthy d.tsaReference) then "not-initiated"
  else
    match d.paymentConfirmation with
    | none => "pending"
    | some confirmation => if confirmation.verified then "verified" else "unverified"

/-- `TSAPaymentReconciliationAgent.getReconciledAmount`
(`declaration.paymentConfirmation?.amount || 0`). -/
def getReconciledAmount (d : Declaration) : ℚ :=
  orFalsy (d.paymentConfirmation.map (fun c => c.amount)) 0

/-- `TSAPaymentReconciliationAgent.analyze`: findings and risk-score
summands in source order, risk score capped at `100`, `hasViolation`
exactly when the findings list is non-empty, confidence fixed at `1.0`. -/
def analyze (d : Declaration) : AgentResult :=
  let tsaIssues := verifyTSAPayments d
  let bankIssues := reconcileBankPayments d
  let exchangeIssues := validateExchangeRates d
  let findings := tsaIssues ++ bankIssues ++ exchangeIssues
  let riskScore : ℚ :=
    (tsaIssues.length : ℚ) * 25 + (bankIssues.length : ℚ) * 15
      + (exchangeIssues.length : ℚ) * 10
  let hasViolation := decide (0 < findings.length)
  let riskScore := min 100 riskScore
  generateResult agentId agentType (jsId d) hasViolation 1.0 riskScore findings 0
    (some { tsaStatus := some (getTSAStatus d)
            reconciledAmount := some (getReconciledAmount d)
            paymentMethod := d.paymentMethod })

end TSAPaymentReconciliationAgent

/-! Embedding of the orchestrator `GhanaAuditRunner`
(`src/lib/services/production-audit-engine.ts`). -/

/-- The `scope` enumeration of `AuditExecutionConfigSchema`. -/
inductive Scope
  | all
  | hsCodes
  | shipments
  | declarations
deriving Repr, DecidableEq

/-- The `targetFilters` object of `AuditExecutionConfigSchema`; the date
range is the pair of its parsed bounds. -/
structure TargetFilters where
  hsCodes : Option (List String) := none
  shipmentIds : Option (List String) := none
  declarationIds : Option (List String) := none
  dateRange : Option (ℚ × ℚ) := none
  countries : Option (List String) := none
  riskThreshold : Option ℚ := none
  sectors : Option (List String) := none
deriving Repr, DecidableEq

/-- The `agentConfig` object of `AuditExecutionConfigSchema`, with the
schema's defaults. -/
structure AgentConfig where
  enableECOWASAgent : Bool := true
  enablePetroleumAgent : Bool := true
  enableTaxAgent : Bool := true
  enableTSAgent : Bool := true
deriving Repr, DecidableEq

/-- The `executionOptions` object of `AuditExecutionConfigSchema`, with the
schema's defaults. -/
structure ExecutionOptions where
  parallelExecution : Bool := true
  maxConcurrency : ℕ := 10
  timeoutMs : ℚ := 30000
  enableRealTimeUpdates : Bool := true
deriving Repr, DecidableEq

/-- `AuditExecutionConfig`. -/
structure AuditExecutionConfig where
  caseId : String := "case-1"
  scope : Scope := Scope.all
  targetFilters : TargetFilters := {}
  agentConfig : AgentConfig := {}
  executionOptions : ExecutionOptions := {}
deriving Repr, DecidableEq

namespace GhanaAuditRunner

/-- `GhanaAuditRunner.isEcowaSCountry` (the runner's own copy of the
ECOWAS country list). -/
def isEcowaSCountry (country : String) : Bool :=
  (["NG", "BJ", "CI", "BF", "ML", "NE", "SN", "SL", "TG"] : List String).contains country

/-- `GhanaAuditRunner.shouldAgentRun`: the per-declaration agent-selection
switch (default branch `true`). -/
def shouldAgentRun (agentType : String) (d : Declaration) : Bool :=
  match agentType with
  | "ecowas-origin" => d.ecowasOrigin || isEcowaSCountry d.originCountry
  | "petroleum-atg" =>
      (["2709", "2710", "2711", "2713"] : List String).any
        (fun code => strStartsWith d.hsCode code)
  | "tax-compliance" => true
  | "tsa-reconciliation" => decide (d.value > 1000)
  | _ => true

/-- `GhanaAuditRunner.getEnabledAgents`: the agent keys enabled by the
configuration, in the insertion order of the source's `Map`. -/
def getEnabledAgents (config : AuditExecutionConfig) : List String :=
  (if config.agentConfig.enableECOWASAgent then ["ecowas-origin"] else [])
    ++ (if config.agentConfig.enablePetroleumAgent then ["petroleum-atg"] else [])
    ++ (if config.agentConfig.enableTaxAgent then ["tax-compliance"] else [])
    ++ (if config.agentConfig.enableTSAgent then ["tsa-reconciliation"] else [])

/-- The agent registry built by `initializeAgents` and consulted through
`this.agents`: the analysis function keyed by agent type. -/
def agentAnalyze : String → Declaration → Option AgentResult
  | "ecowas-origin", d => some (ECOWASOriginVerificationAgent.analyze d)
  | "petroleum-atg", d => some (PetroleumATGAnalyzer.analyze d)
  | "tax-compliance", d => some (GhanaTaxComplianceAgent.analyze d)
  | "tsa-reconciliation", d => some (TSAPaymentReconciliationAgent.analyze d)
  | _, _ => none

/-- The agent types `processDeclaration` actually invokes on a
declaration: the enabled agents filtered by `shouldAgentRun`. -/
def agentTypesRun (config : AuditExecutionConfig) (d : Declaration) : List String :=
  (getEnabledAgents config).filter (fun agentType => shouldAgentRun agentType d)

/-- `GhanaAuditRunner.processDeclaration`: run every enabled agent that
`shouldAgentRun` selects, in registry order, collecting the results. -/
def processDeclaration (config : AuditExecutionConfig) (d : Declaration) :
    List AgentResult :=
  (agentTypesRun config d).filterMap (fun agentType => agentAnalyze agentType d)

/-- `GhanaAuditRunner.filterDeclarations`: the scope-specific filter
followed by the common filters, each applied only when its criterion is
present, composing as a logical AND. -/
def filterDeclarations (declarations : List Declaration)
    (config : AuditExecutionConfig) : List Declaration :=
  let filtered := declarations
  let filtered :=
    match config.scope with
    | Scope.hsCodes =>
        match config.targetFilters.hsCodes with
        | some codes =>
            filtered.filter (fun decl =>
              codes.any (fun code => strStartsWith decl.hsCode code))
        | none => filtered
    | Scope.shipments =>
        match config.targetFilters.shipmentIds with
        | some ids => filtered.filter (fun decl => ids.contains decl.shipmentId)
        | none => filtered
    | Scope.declarations =>
        match config.targetFilters.declarationIds with
        | some ids => filtered.filter (fun decl => ids.contains (jsId decl))
        | none => filtered
    | Scope.all => filtered
  let filtered :=
    match config.targetFilters.dateRange with
    | some range =>
        filtered.filter (fun decl =>
          decide (range.1 ≤ decl.date) && decide (decl.date ≤ range.2))
    | none => filtered
  let filtered :=
    match config.targetFilters.countries with
    | some countries =>
        filtered.filter (fun decl =>
          countries.contains decl.originCountry
            || countries.contains decl.destinationCountry)
    | none => filtered
  let filtered :=
    match config.targetFilters.riskThreshold with
    | some threshold =>
        filtered.filter (fun decl => decide (decl.riskScore.getD 0 ≥ threshold))
    | none => filtered
  let filtered :=
    match config.targetFilters.sectors with
    | some sectors =>
        filtered.filter (fun decl =>
          match decl.sector with
          | some sector => sectors.contains sector
          | none => false)
    | none => filtered
  filtered

/-- `GhanaAuditRunner.chunkArray`: successive slices of `chunkSize`
elements. The source's loop steps its index by `chunkSize` and therefore
diverges for `chunkSize = 0` on a non-empty array; that unreachable-by-
default case (the schema default is `10`) is modelled as producing no
chunks, and every theorem about the parallel path assumes a positive
`maxConcurrency`. -/
def chunkArray (chunkSize : ℕ) (array : List α) : List (List α) :=
  if h : chunkSize = 0 ∨ array.isEmpty then []
  else
    array.take chunkSize :: chunkArray chunkSize (array.drop chunkSize)
termination_by array.length
decreasing_by
  simp only [not_or, List.isEmpty_iff] at h
  have h1 : chunkSize ≠ 0 := h.1
  have h2 : array ≠ [] := h.2
  have h3 : 0 < array.length := List.length_pos.mpr h2
  simp only [List.length_drop]
  omega

/-- The mutable counters and result list of one execution, as threaded
through `executeSequential` and `executeParallel`. -/
structure ExecState where
  processed : ℕ := 0
  failed : ℕ := 0
  agentResults : List AgentResult := []
deriving Repr, DecidableEq

/-- One iteration of the `executeSequential` loop over a per-declaration
processing function: a successful step appends its results and counts the
declaration as processed, a throwing step (`none`) counts it as failed and
records an execution error. -/
def stepDecl (process : Declaration → Option (List AgentResult))
    (st : ExecState) (d : Declaration) : ExecState :=
  match process d with
  | some results =>
      { st with
          agentResults := st.agentResults ++ results
          processed := st.processed + 1 }
  | none => { st with failed := st.failed + 1 }

/-- The `results.forEach` body of `executeParallel`: a non-null outcome
appends its results and increments the processed count, a null one (an
already-counted failure) is skipped. -/
def pushOutcome (s : ExecState) (outcome : Option (List AgentResult)) : ExecState :=
  match outcome with
  | some results =>
      { s with
          agentResults := s.agentResults ++ results
          processed := s.processed + 1 }
  | none => s

/-- One `executeParallel` batch: the per-declaration outcomes of the chunk
are settled first (`Promise.all`, failures incrementing the failure count
inside the catch), then the non-null results are pushed in chunk order,
each incrementing the processed count. -/
def stepChunk (process : Declaration → Option (List AgentResult))
    (st : ExecState) (chunk : List Declaration) : ExecState :=
  let outcomes := chunk.map process
  let st := { st with failed := st.failed + outcomes.countP Option.isNone }
  outcomes.foldl pushOutcome st

/-- `GhanaAuditRunner.executeSequential` over an abstract per-declaration
processing function (`processDeclaration` in the live engine; `none`
models the throw of case (b) of the error taxonomy, caught per
declaration). -/
def executeSequential (process : Declaration → Option (List AgentResult))
    (declarations : List Declaration) : ExecState :=
  declarations.foldl (stepDecl process) {}

/-- `GhanaAuditRunner.executeParallel` over the same abstract
per-declaration processing function: the declaration list is chunked by
`maxConcurrency` and each chunk is settled as one batch. -/
def executeParallel (process : Declaration → Option (List AgentResult))
    (maxConcurrency : ℕ) (declarations : List Declaration) : ExecState :=
  (chunkArray maxConcurrency declarations).foldl (stepChunk process) {}

end GhanaAuditRunner

/-- Per-sector entry of `ghanaMetrics.sectoralBreakdown`. -/
structure SectorStats where
  violations : ℕ
  recovery : ℚ
  declarations : ℕ
deriving Repr, DecidableEq

/-- `ghanaMetrics.riskDistribution`, initialised to all zero buckets. -/
structure RiskDistribution where
  low : ℕ := 0
  medium : ℕ := 0
  high : ℕ := 0
  critical : ℕ := 0
deriving Repr, DecidableEq

/-- The `ghanaMetrics` object of `AuditExecutionResultSchema`. The two JS
record objects are modelled as association lists in key-insertion order. -/
structure GhanaMetrics where
  totalViolations : ℕ
  totalRecoveryAmount : ℚ
  sectoralBreakdown : List (String × SectorStats)
  violationTypes : List (String × ℕ)
  riskDistribution : RiskDistribution
  complianceRate : ℚ
deriving Repr, DecidableEq

/-- JS property access `result.riskLevel` as performed by the risk
distribution pass of `calculateGhanaMetrics` (line 2525): the
`AgentResultSchema` declares no `riskLevel` field and `generateResult`
never sets one, so on every agent result this access yields `undefined`. -/
def AgentResult.riskLevel (_ : AgentResult) : Option ℚ := none

/-- `metadata?.recoveryAmount || metadata?.estimatedShortfall || 0`, the
recovery estimate `calculateGhanaMetrics` reads off a violating result. -/
def recoveryOf (r : AgentResult) : ℚ :=
  orFalsy (r.metadata.bind (fun m => m.recoveryAmount))
    (orFalsy (r.metadata.bind (fun m => m.estimatedShortfall)) 0)

/-- `result.metadata?.sector || 'unknown'`, the group key of
`groupResultsBySector`. -/
def sectorKey (r : AgentResult) : String :=
  strOr (r.metadata.bind (fun m => m.sector)) "unknown"

/-- Increment of a JS record used as a histogram
(`m[key] = (m[key] || 0) + 1`), preserving key-insertion order. -/
def bumpCount : List (String × ℕ) → String → List (String × ℕ)
  | [], key => [(key, 1)]
  | (k, v) :: rest, key =>
      if k == key then (k, v + 1) :: rest else (k, v) :: bumpCount rest key

/-- Insertion into the `Map` of `groupResultsBySector`, preserving
key-insertion order. -/
def addToGroup : List (String × List AgentResult) → String → AgentResult →
    List (String × List AgentResult)
  | [], sector, r => [(sector, [r])]
  | (k, rs) :: rest, sector, r =>
      if k == sector then (k, rs ++ [r]) :: rest
      else (k, rs) :: addToGroup rest sector r

/-- `GhanaAuditRunner.groupResultsBySector`. -/
def groupResultsBySector (results : List AgentResult) :
    List (String × List AgentResult) :=
  results.foldl (fun groups r => addToGroup groups (sectorKey r) r) []

/-- The single bucket update of the risk-distribution pass of
`calculateGhanaMetrics`:
`riskDistribution[riskLevel >= 80 ? critical : >= 60 ? high : >= 40 ? medium : low]++`,
reading the (absent) `riskLevel` property of the result. -/
def riskBucketUpdate (rd : RiskDistribution) (r : AgentResult) : RiskDistribution :=
  if jsGe r.riskLevel 80 then { rd with critical := rd.critical + 1 }
  else if jsGe r.riskLevel 60 then { rd with high := rd.high + 1 }
  else if jsGe r.riskLevel 40 then { rd with medium := rd.medium + 1 }
  else { rd with low := rd.low + 1 }

/-- `GhanaAuditRunner.calculateGhanaMetrics` as a function of the final
`agentResults` list (the only execution state it reads; it overwrites
every `ghanaMetrics` field it touches, starting from the zeroed
`riskDistribution` of the initial execution record). -/
def calculateGhanaMetrics (results : List AgentResult) : GhanaMetrics :=
  let violations := results.filter (fun r => r.hasViolation)
  { totalViolations := violations.length
    totalRecoveryAmount := (violations.map recoveryOf).sum
    sectoralBreakdown :=
      (groupResultsBySector results).map (fun g =>
        let sectorViolations := g.2.filter (fun r => r.hasViolation)
        (g.1,
         { violations := sectorViolations.length
           recovery := (sectorViolations.map recoveryOf).sum
           declarations := g.2.length }))
    violationTypes :=
      violations.foldl
        (fun m v => v.findings.foldl (fun m f => bumpCount m f.type) m) []
    riskDistribution := results.foldl riskBucketUpdate {}
    complianceRate :=
      if results.length = 0 then 0
      else ((results.length : ℚ) - (violations.length : ℚ)) / (results.length : ℚ) * 100 }

/-- Status enumeration of an execution (`AuditExecutionResultSchema`). -/
inductive ExecStatus
  | running
  | completed
  | failed
  | cancelled
deriving Repr, DecidableEq

/-- The fields of `AuditExecutionResult` the claims below concern (the
wall-clock `performanceMetrics` and per-agent `agentPerformance` are
outside the model). -/
structure AuditExecutionResult where
  status : ExecStatus
  totalDeclarations : ℕ
  processedDeclarations : ℕ
  failedDeclarations : ℕ
  agentResults : List AgentResult
  ghanaMetrics : GhanaMetrics
deriving Repr, DecidableEq

namespace GhanaAuditRunner

/-- The body of `GhanaAuditRunner.executeAudit` over an abstract
per-declaration processing function: filter the declarations, take the
filtered count as the total, run the configured execution mode, aggregate,
and finish with status `completed`. In this typed model the try body is
total, so the `catch` branch that would set status `failed` is
unreachable. -/
def executeAuditWith (process : Declaration → Option (List AgentResult))
    (config : AuditExecutionConfig) (declarations : List Declaration) :
    AuditExecutionResult :=
  let filteredDeclarations := filterDeclarations declarations config
  let st :=
    if config.executionOptions.parallelExecution then
      executeParallel process config.executionOptions.maxConcurrency filteredDeclarations
    else
      executeSequential process filteredDeclarations
  { status := ExecStatus.completed
    totalDeclarations := filteredDeclarations.length
    processedDeclarations := st.processed
    failedDeclarations := st.failed
    agentResults := st.agentResults
    ghanaMetrics := calculateGhanaMetrics st.agentResults }

/-- `GhanaAuditRunner.executeAudit` with the live per-declaration step
(`processDeclaration`, which catches individual agent errors internally
and in this typed model always returns its result list). -/
def executeAudit (config : AuditExecutionConfig) (declarations : List Declaration) :
    AuditExecutionResult :=
  executeAuditWith (fun d => some (processDeclaration config d)) config declarations

/-- The execution counters after the first `k` iterations of the
`executeSequential` loop (an intermediate observation point of the run,
as reported to the progress callback). -/
def seqStateAt (process : Declaration → Option (List AgentResult))
    (declarations : List Declaration) (k : ℕ) : ExecState :=
  (declarations.take k).foldl (stepDecl process) {}

/-- The execution counters after the first `k` settled batches of the
`executeParallel` loop (an intermediate observation point of the run,
as reported to the progress callback). -/
def parStateAt (process : Declaration → Option (List AgentResult))
    (maxConcurrency : ℕ) (declarations : List Declaration) (k : ℕ) : ExecState :=
  ((chunkArray maxConcurrency declarations).take k).foldl (stepChunk process) {}

/-- `GhanaAuditRunner.cancelExecution` acting on the status of a stored
execution: only a running execution is flipped to `cancelled` (returning
`true`); any other status is left unchanged (returning `false`). -/
def cancelExecution (status : ExecStatus) : ExecStatus × Bool :=
  if status = ExecStatus.running then (ExecStatus.cancelled, true)
  else (status, false)

/-- The status-affecting steps that can act on one execution record:
`cancel` is a `cancelExecution` call (line 2609), `finish` is the
unconditional `execution.status = completed` at the end of the
`executeAudit` try block (line 2233), `failAudit` the unconditional
`execution.status = failed` of its catch block (line 2237). `cancel` may
interleave at any `await` boundary of the run, since `executeAudit` never
re-reads the status. -/
inductive StatusEvent
  | cancel
  | finish
  | failAudit
deriving Repr, DecidableEq

/-- Effect of one status-affecting step on the stored execution status. -/
def applyStatusEvent (status : ExecStatus) : StatusEvent → ExecStatus
  | StatusEvent.cancel => (cancelExecution status).1
  | StatusEvent.finish => ExecStatus.completed
  | StatusEvent.failAudit => ExecStatus.failed

/-- The sequence of statuses an execution record passes through under a
sequence of status-affecting steps, starting from the `running` status set
at creation. -/
def statusTrace (events : List StatusEvent) : List ExecStatus :=
  events.scanl applyStatusEvent ExecStatus.running

end GhanaAuditRunner

/-! Embedding of the simulation scoring pass
`GhanaRulePackService.evaluateDeclaration`
(`src/lib/services/production-audit-engine.ts`, `GhanaRuleSchema` and
`RulePackSchema`). -/

namespace GhanaRulePackService

/-- The `criteria` object of `GhanaRuleSchema`: every criterion optional. -/
structure RuleCriteria where
  valueThreshold : Option ℚ := none
  weightThreshold : Option ℚ := none
  hsCodePatterns : Option (List String) := none
  countryPatterns : Option (List String) := none
  riskScoreThreshold : Option ℚ := none
deriving Repr, DecidableEq

/-- The `ghanaCompliance` flags of `GhanaRuleSchema`. -/
structure GhanaComplianceFlags where
  vatRequirement : Bool := false
  getFundRequirement : Bool := false
  nhilRequirement : Bool := false
  covidLevyRequirement : Bool := false
  ecowasOriginCheck : Bool := false
  atgRequirement : Option Bool := none
deriving Repr, DecidableEq

/-- A rule of `GhanaRuleSchema`; `category` is kept as a string because
`evaluateDeclaration` compares it with `declaration.sector` by string
equality. The static `impactMetrics`, timestamps and descriptive fields,
which `evaluateDeclaration` never reads, are omitted. -/
structure GhanaRule where
  id : String := ""
  name : String := ""
  category : String := "general"
  riskLevel : String := "medium"
  isActive : Bool := true
  focusAreas : List String := []
  ghanaCompliance : GhanaComplianceFlags := {}
  criteria : RuleCriteria := {}
deriving Repr, DecidableEq

/-- A rule pack of `RulePackSchema`; the sectoral `focusAreas` weights and
`riskLevels` policy, which `evaluateDeclaration` never reads, are
omitted. -/
structure RulePack where
  id : String := ""
  name : String := ""
  version : String := ""
  isActive : Bool := true
  rules : List GhanaRule := []
deriving Repr, DecidableEq

/-- JS `pattern.replace('*', '')`: removes the first occurrence of the
star character (and only the first). -/
def removeFirstStarAux : List Char → List Char
  | [] => []
  | c :: cs => if c == '*' then cs else c :: removeFirstStarAux cs

/-- The HS-code pattern as `evaluateDeclaration` matches it:
`declaration.hsCode.startsWith(pattern.replace('*', ''))`. -/
def removeFirstStar (pattern : String) : String :=
  String.mk (removeFirstStarAux pattern.data)

/-- The `+20` HS-code-pattern contribution of one rule. The source guards
the block with the truthiness of `criteria.hsCodePatterns` (an empty array
is truthy but matches nothing). -/
def ruleHSCodeScore (d : Declaration) (rule : GhanaRule) : ℚ :=
  match rule.criteria.hsCodePatterns with
  | some patterns =>
      if patterns.any (fun pattern => strStartsWith d.hsCode (removeFirstStar pattern))
      then 20 else 0
  | none => 0

/-- The `+15` value-threshold contribution of one rule. The source's guard
`rule.criteria.valueThreshold && declaration.value < threshold` skips an
absent and also a zero threshold (JS truthiness). -/
def ruleValueScore (d : Declaration) (rule : GhanaRule) : ℚ :=
  match rule.criteria.valueThreshold with
  | some threshold =>
      if !(threshold == 0) && d.value < threshold then 15 else 0
  | none => 0

/-- The `+30` ECOWAS country-pattern contribution of one rule: guarded by
the presence of `criteria.countryPatterns` and the rule's
`ecowasOriginCheck` flag, scored when the declaration claims ECOWAS origin
but its origin country is not in the pattern list. -/
def ruleCountryScore (d : Declaration) (rule : GhanaRule) : ℚ :=
  match rule.criteria.countryPatterns with
  | some patterns =>
      if rule.ghanaCompliance.ecowasOriginCheck && d.ecowasOrigin
          && !(patterns.contains d.originCountry)
      then 30 else 0
  | none => 0

/-- The `+10` sector contribution of one rule
(`rule.category === declaration.sector`; an absent sector matches no
category). -/
def ruleSectorScore (d : Declaration) (rule : GhanaRule) : ℚ :=
  if d.sector == some rule.category then 10 else 0

/-- Total score contribution of one active rule, in the source's check
order (HS code, value threshold, country patterns, sector). -/
def ruleContribution (d : Declaration) (rule : GhanaRule) : ℚ :=
  ruleHSCodeScore d rule + ruleValueScore d rule
    + ruleCountryScore d rule + ruleSectorScore d rule

/-- One iteration of the `evaluateDeclaration` loop: an inactive rule is
skipped entirely (`continue`); an active rule adds its contributions to
the running score and then compares that running score against its own
risk-score threshold (the guard `rule.criteria.riskScoreThreshold &&
riskScore >= threshold` skips an absent and also a zero threshold). -/
def evalStep (d : Declaration) (acc : ℚ × Bool) (rule : GhanaRule) : ℚ × Bool :=
  if !rule.isActive then acc
  else
    let riskScore := acc.1 + ruleContribution d rule
    let hasViolation := acc.2 ||
      (match rule.criteria.riskScoreThreshold with
       | some threshold => !(threshold == 0) && decide (riskScore ≥ threshold)
       | none => false)
    (riskScore, hasViolation)

/-- `GhanaRulePackService.evaluateDeclaration`: fold of `evalStep` over
the pack's rules starting from score `0` and no violation, returning the
pair `(riskScore, hasViolation)` (in the source's object, `hasViolation`
and `riskScore`). -/
def evaluateDeclaration (rulePack : RulePack) (d : Declaration) : ℚ × Bool :=
  rulePack.rules.foldl (evalStep d) (0, false)

/-- The total rule-score as the claim reads it: the sum, over the active
rules, of the per-rule contributions. This follows the claim's wording,
for comparison with `evaluateDeclaration`. -/
def claimedScore (rulePack : RulePack) (d : Declaration) : ℚ :=
  ((rulePack.rules.filter (fun rule => rule.isActive)).map (ruleContribution d)).sum

/-- The violation criterion as the claim states it: the accumulated
(final) score meets or exceeds the configured risk-score threshold of some
active rule. This follows the claim's wording, for comparison with
`evaluateDeclaration`. -/
def claimedHasViolation (rulePack : RulePack) (d : Declaration) : Bool :=
  rulePack.rules.any (fun rule =>
    rule.isActive &&
      (match rule.criteria.riskScoreThreshold with
       | some threshold => decide (claimedScore rulePack d ≥ threshold)
       | none => false))

/-- The violation criterion the source actually implements: walking the
rules in order with the running score, an active rule with a truthy
(present, non-zero) risk-score threshold flags a violation when the score
accumulated up to and including that rule meets or exceeds its
threshold. -/
def runningViolation (d : Declaration) : ℚ → List GhanaRule → Bool
  | _, [] => false
  | s, rule :: rest =>
      if !rule.isActive then runningViolation d s rest
      else
        let s1 := s + ruleContribution d rule
        ((match rule.criteria.riskScoreThreshold with
          | some threshold => !(threshold == 0) && decide (s1 ≥ threshold)
          | none => false))
          || runningViolation d s1 rest

end GhanaRulePackService

open GhanaAuditRunner GhanaRulePackService

/-! Concrete instances used to evaluate the development on closed inputs. -/

/-- A configuration with every schema default (`scope = all`, all agents
enabled, parallel execution with `maxConcurrency = 10`). -/
def defaultConfig : AuditExecutionConfig := {}

/-- A small mixed batch: one petroleum ECOWAS declaration and one low-value
textile declaration. -/
def sampleDeclarations : List Declaration :=
  [{ id := "GH-001", hsCode := "27101990", originCountry := "NG", ecowasOrigin := true,
     value := 50000, sector := some "petroleum" },
   { id := "GH-002", hsCode := "52010000", originCountry := "CN", ecowasOrigin := false,
     value := 800 }]

/-- A per-declaration outcome assignment with one failing declaration,
exercising both counters of the conservation law. -/
def conservationWitnessProcess : Declaration → Option (List AgentResult) :=
  fun d => if d.id == "GH-BAD" then none else some []

/-- A declaration claiming ECOWAS origin from a non-ECOWAS country. -/
def originFraudWitnessDeclaration : Declaration :=
  { id := "GH-020", originCountry := "CN", destinationCountry := "GH",
    ecowasOrigin := true, hsCode := "8703", value := 10000 }

/-- A cotton (non-petroleum) declaration with every other field set to
values that would trigger petroleum findings if the early exit were
skipped. -/
def nonPetroleumWitnessDeclaration : Declaration :=
  { id := "GH-040", hsCode := "52010000", value := 250000, atgApplicable := true,
    ecowasOrigin := true, volume := some 100, weight := 5000 }

/-- A petroleum declaration with a value above the TSA threshold and no
ECOWAS connection. -/
def selectionWitnessDeclaration : Declaration :=
  { id := "GH-090", hsCode := "27101990", value := 5000, ecowasOrigin := false,
    originCountry := "DE" }

/-- A declaration with no ECOWAS claim and no certificate of origin among
its documents. -/
def missingDocumentWitnessDeclaration : Declaration :=
  { id := "GH-010", ecowasOrigin := false, originCountry := "GB", hsCode := "8703",
    value := 100, documents := none }

/-- An agent result with numeric risk score `85`, the bucketing input of
the risk-distribution pass. -/
def riskScore85Result : AgentResult :=
  { agentId := "ecowas-origin-001", agentType := "ecowas-origin", declarationId := "GH-085",
    hasViolation := true, confidence := 0.95, riskScore := 85,
    findings := [], processingTime := 0, metadata := none }

/-- An active rule whose only criterion is a risk-score threshold of 25. -/
def thresholdRule : GhanaRule :=
  { id := "rule-threshold", name := "Standalone risk threshold", category := "general",
    isActive := true, criteria := { riskScoreThreshold := some 25 } }

/-- An active petroleum rule matching HS prefix 2710, with no threshold. -/
def petroleumMatchRule : GhanaRule :=
  { id := "rule-petroleum", name := "Petroleum HS match", category := "petroleum",
    isActive := true, criteria := { hsCodePatterns := some ["2710"] } }

/-- A rule pack whose threshold rule precedes the rule that produces the
score. -/
def counterexampleRulePack : RulePack :=
  { id := "pack-cex", rules := [thresholdRule, petroleumMatchRule] }

/-- A petroleum declaration scoring 30 points against
`counterexampleRulePack` (20 for the HS match, 10 for the sector match),
all of them earned after the threshold rule has already been checked. -/
def counterexampleDeclaration : Declaration :=
  { id := "GH-100", hsCode := "27101990", value := 5, sector := some "petroleum" }

/-! Theorems. First, the normal forms of the two execution loops. -/

/-- Normal form of the sequential loop: after folding `stepDecl` over a
declaration list, the processed count has grown by the number of
successful outcomes, the failed count by the number of throwing ones, and
the result list by the concatenated successful result lists in order. -/
theorem stepDecl_foldl (process : Declaration → Option (List AgentResult))
    (st : ExecState) (l : List Declaration) :
    l.foldl (stepDecl process) st =
      { processed := st.processed + l.countP (fun d => (process d).isSome)
        failed := st.failed + l.countP (fun d => (process d).isNone)
        agentResults := st.agentResults ++ (l.filterMap process).flatten } := by
  induction l generalizing st with
  | nil => simp
  | cons d ds ih =>
      cases hpd : process d with
      | some results =>
          simp [stepDecl, hpd, ih, List.countP_cons]
          omega
      | none =>
          simp [stepDecl, hpd, ih, List.countP_cons]
          omega

/-- Normal form of the `results.forEach` push loop of `executeParallel`. -/
theorem pushOutcomes_foldl (outcomes : List (Option (List AgentResult)))
    (st : ExecState) :
    outcomes.foldl pushOutcome st =
    { st with
        processed := st.processed + outcomes.countP Option.isSome
        agentResults := st.agentResults ++ (outcomes.filterMap id).flatten } := by
  induction outcomes generalizing st with
  | nil => simp
  | cons o os ih =>
      cases o with
      | some results => simp [pushOutcome, ih, List.countP_cons]; omega
      | none => simp [pushOutcome, ih, List.countP_cons]

/-- One parallel batch has the same effect on the execution state as
running the sequential loop over the batch. -/
theorem stepChunk_eq_foldl (process : Declaration → Option (List AgentResult))
    (st : ExecState) (chunk : List Declaration) :
    stepChunk process st chunk = chunk.foldl (stepDecl process) st := by
  rw [stepDecl_foldl]
  unfold stepChunk
  simp only [pushOutcomes_foldl]
  simp [List.countP_map, List.filterMap_map, Function.comp_def]

/-- For a positive chunk size, chunking and then flattening restores the
original list. -/
theorem chunkArray_flatten {α : Type _} (chunkSize : ℕ) (h : 0 < chunkSize)
    (l : List α) : (chunkArray chunkSize l).flatten = l := by
  generalize hn : l.length = n
  induction n using Nat.strong_induction_on generalizing l with
  | _ n ih =>
    rw [chunkArray]
    by_cases hc : chunkSize = 0 ∨ l.isEmpty
    · rw [dif_pos hc]
      rcases hc with h0 | he
      · omega
      · simp_all [List.isEmpty_iff]
    · rw [dif_neg hc]
      push_neg at hc
      obtain ⟨h0, he⟩ := hc
      have hne : l ≠ [] := by simpa [List.isEmpty_iff] using he
      have hpos : 0 < l.length := List.length_pos.mpr hne
      have hlt : (l.drop chunkSize).length < n := by
        subst hn
        simp only [List.length_drop]
        omega
      simp only [List.flatten_cons]
      rw [ih _ hlt (l.drop chunkSize) rfl]
      exact List.take_append_drop _ _

/-- Folding the batch step over any chunk list equals folding the
sequential step over its flattening. -/
theorem foldl_stepChunk_flatten (process : Declaration → Option (List AgentResult))
    (chunks : List (List Declaration)) (st : ExecState) :
    chunks.foldl (stepChunk process) st
      = (chunks.flatten).foldl (stepDecl process) st := by
  induction chunks generalizing st with
  | nil => simp
  | cons c cs ih =>
      simp [List.flatten_cons, List.foldl_append, stepChunk_eq_foldl, ih]

/-- For a positive concurrency bound the parallel loop produces exactly
the sequential execution state: same counts and the same result list in
the same order. -/
theorem executeParallel_eq_sequential (process : Declaration → Option (List AgentResult))
    (mc : ℕ) (h : 0 < mc) (l : List Declaration) :
    executeParallel process mc l = executeSequential process l := by
  unfold executeParallel executeSequential
  rw [foldl_stepChunk_flatten, chunkArray_flatten mc h]

/-- Declaration filtering does not read the execution options. -/
theorem filterDeclarations_exec_opts (declarations : List Declaration)
    (config : AuditExecutionConfig) (e : ExecutionOptions) :
    filterDeclarations declarations { config with executionOptions := e }
      = filterDeclarations declarations config := rfl

/-- Per-declaration agent dispatch does not read the execution options. -/
theorem processDeclaration_exec_opts (config : AuditExecutionConfig)
    (e : ExecutionOptions) (d : Declaration) :
    processDeclaration { config with executionOptions := e } d
      = processDeclaration config d := rfl

/-- Every declaration outcome is counted exactly once, as a success or as
a failure. -/
theorem countP_isSome_add_isNone (process : Declaration → Option (List AgentResult))
    (l : List Declaration) :
    l.countP (fun d => (process d).isSome) + l.countP (fun d => (process d).isNone)
      = l.length := by
  induction l with
  | nil => simp
  | cons d ds ih =>
      cases hpd : process d <;> simp [List.countP_cons, hpd] <;> omega

/-- The two execution counters of a sequential fold sum to the number of
declarations folded over. -/
theorem foldl_counts (process : Declaration → Option (List AgentResult))
    (l : List Declaration) :
    (l.foldl (stepDecl process) {}).processed + (l.foldl (stepDecl process) {}).failed
      = l.length := by
  rw [stepDecl_foldl]
  simpa using countP_isSome_add_isNone process l

/-- C1: for every configuration (with a positive concurrency bound, since
the source's chunking loop diverges at zero) and every declaration list,
running `executeAudit` with `executionOptions.parallelExecution = true`
and with `parallelExecution = false` produces the same `ghanaMetrics`
object: equal `totalViolations`, `totalRecoveryAmount`,
`sectoralBreakdown`, `violationTypes`, `riskDistribution` and
`complianceRate`. (In this model the two modes produce the `agentResults`
list in the same order as well, which is stronger than the claim's
allowance that only the order may differ.) -/
theorem parallel_and_sequential_modes_agree_on_ghana_metrics
    (config : AuditExecutionConfig) (declarations : List Declaration)
    (h : 0 < config.executionOptions.maxConcurrency) :
    (executeAudit
        { config with
            executionOptions :=
              { config.executionOptions with parallelExecution := true } }
        declarations).ghanaMetrics =
    (executeAudit
        { config with
            executionOptions :=
              { config.executionOptions with parallelExecution := false } }
        declarations).ghanaMetrics := by
  unfold executeAudit executeAuditWith
  simp only [filterDeclarations_exec_opts, processDeclaration_exec_opts,
    if_true, if_false]
  rw [executeParallel_eq_sequential _ _ h]
  simp

/-- C7: for every per-declaration outcome assignment and configuration
with a positive concurrency bound, a finished execution (in this typed
model the try body is total, so every run ends `completed`; `failed` is
unreachable and the implication holds for both terminal statuses) has
`processedDeclarations + failedDeclarations = totalDeclarations`; and at
every intermediate point of either execution mode the two counters sum to
at most the total. -/
theorem count_conservation_and_running_invariant
    (process : Declaration → Option (List AgentResult))
    (config : AuditExecutionConfig) (declarations : List Declaration)
    (h : 0 < config.executionOptions.maxConcurrency) :
    (((executeAuditWith process config declarations).status = ExecStatus.completed ∨
        (executeAuditWith process config declarations).status = ExecStatus.failed) →
      (executeAuditWith process config declarations).processedDeclarations
          + (executeAuditWith process config declarations).failedDeclarations
        = (executeAuditWith process config declarations).totalDeclarations)
    ∧ (∀ k : ℕ,
        (seqStateAt process (filterDeclarations declarations config) k).processed
            + (seqStateAt process (filterDeclarations declarations config) k).failed
          ≤ (filterDeclarations declarations config).length)
    ∧ (∀ k : ℕ,
        (parStateAt process config.executionOptions.maxConcurrency
              (filterDeclarations declarations config) k).processed
            + (parStateAt process config.executionOptions.maxConcurrency
              (filterDeclarations declarations config) k).failed
          ≤ (filterDeclarations declarations config).length) := by
  refine ⟨fun _ => ?_, fun k => ?_, fun k => ?_⟩
  · unfold executeAuditWith
    by_cases hp : config.executionOptions.parallelExecution
    · simp only [hp, if_true]
      rw [executeParallel_eq_sequential _ _ h]
      exact foldl_counts process _
    · simp only [hp, if_false]
      unfold executeSequential
      exact foldl_counts process _
  · unfold seqStateAt
    calc ((filterDeclarations declarations config).take k |>.foldl (stepDecl process) {}).processed
          + ((filterDeclarations declarations config).take k |>.foldl (stepDecl process) {}).failed
        = ((filterDeclarations declarations config).take k).length := foldl_counts process _
      _ ≤ (filterDeclarations declarations config).length := by
          simp [List.length_take]
  · unfold parStateAt
    rw [foldl_stepChunk_flatten]
    have hlen : (((chunkArray config.executionOptions.maxConcurrency
        (filterDeclarations declarations config)).take k).flatten).length
        ≤ (filterDeclarations declarations config).length := by
      have hsplit := List.take_append_drop k
        (chunkArray config.executionOptions.maxConcurrency
          (filterDeclarations declarations config))
      calc (((chunkArray config.executionOptions.maxConcurrency
              (filterDeclarations declarations config)).take k).flatten).length
          ≤ (((chunkArray config.executionOptions.maxConcurrency
              (filterDeclarations declarations config)).take k).flatten).length
            + (((chunkArray config.executionOptions.maxConcurrency
              (filterDeclarations declarations config)).drop k).flatten).length :=
            Nat.le_add_right _ _
        _ = ((chunkArray config.executionOptions.maxConcurrency
              (filterDeclarations declarations config)).flatten).length := by
            rw [← List.length_append, ← List.flatten_append, hsplit]
        _ = (filterDeclarations declarations config).length := by
            rw [chunkArray_flatten _ h]
    calc _ = (((chunkArray config.executionOptions.maxConcurrency
            (filterDeclarations declarations config)).take k).flatten).length :=
          foldl_counts process _
      _ ≤ _ := hlen

/-- Witness for C1 at the defaults and the sample batch. -/
theorem parallel_and_sequential_modes_agree_on_ghana_metrics_witness :
    0 < defaultConfig.executionOptions.maxConcurrency ∧
    (executeAudit
        { defaultConfig with
            executionOptions :=
              { defaultConfig.executionOptions with parallelExecution := true } }
        sampleDeclarations).ghanaMetrics =
    (executeAudit
        { defaultConfig with
            executionOptions :=
              { defaultConfig.executionOptions with parallelExecution := false } }
        sampleDeclarations).ghanaMetrics :=
  ⟨by decide,
   parallel_and_sequential_modes_agree_on_ghana_metrics defaultConfig
     sampleDeclarations (by decide)⟩

/-- Witness for C7 at the defaults, the sample batch and an outcome
assignment with a failing declaration. -/
theorem count_conservation_and_running_invariant_witness :
    0 < defaultConfig.executionOptions.maxConcurrency ∧
    ((((executeAuditWith conservationWitnessProcess defaultConfig sampleDeclarations).status
          = ExecStatus.completed ∨
        (executeAuditWith conservationWitnessProcess defaultConfig sampleDeclarations).status
          = ExecStatus.failed) →
      (executeAuditWith conservationWitnessProcess defaultConfig sampleDeclarations).processedDeclarations
          + (executeAuditWith conservationWitnessProcess defaultConfig sampleDeclarations).failedDeclarations
        = (executeAuditWith conservationWitnessProcess defaultConfig sampleDeclarations).totalDeclarations)
    ∧ (∀ k : ℕ,
        (seqStateAt conservationWitnessProcess
              (filterDeclarations sampleDeclarations defaultConfig) k).processed
            + (seqStateAt conservationWitnessProcess
              (filterDeclarations sampleDeclarations defaultConfig) k).failed
          ≤ (filterDeclarations sampleDeclarations defaultConfig).length)
    ∧ (∀ k : ℕ,
        (parStateAt conservationWitnessProcess defaultConfig.executionOptions.maxConcurrency
              (filterDeclarations sampleDeclarations defaultConfig) k).processed
            + (parStateAt conservationWitnessProcess defaultConfig.executionOptions.maxConcurrency
              (filterDeclarations sampleDeclarations defaultConfig) k).failed
          ≤ (filterDeclarations sampleDeclarations defaultConfig).length)) :=
  ⟨by decide,
   count_conservation_and_running_invariant conservationWitnessProcess
     defaultConfig sampleDeclarations (by decide)⟩

/-- C2: for every declaration claiming ECOWAS origin whose origin country
is outside the ECOWAS set, the ECOWAS Origin Verification Agent reports a
violation, and its findings contain exactly one Finding of type
`origin-fraud`, which has severity `critical`. -/
theorem origin_fraud_flagged_critical_for_false_ecowas_claim (d : Declaration)
    (h1 : d.ecowasOrigin = true)
    (h2 : d.originCountry ∉ ECOWASOriginVerificationAgent.ecowasCountries) :
    (ECOWASOriginVerificationAgent.analyze d).hasViolation = true ∧
    ((ECOWASOriginVerificationAgent.analyze d).findings.filter
        (fun f => f.type == "origin-fraud")).map Finding.severity
      = [Severity.critical] := by
  have hc : ECOWASOriginVerificationAgent.ecowasCountries.contains d.originCountry
      = false := by
    simpa using h2
  constructor
  · simp [ECOWASOriginVerificationAgent.analyze, generateResult, h1, hc]
    tauto
  · cases hsp : ECOWASOriginVerificationAgent.checkSuspiciousPatterns d with
    | none =>
        by_cases hhs : (!(d.hsCode == "")
            && ECOWASOriginVerificationAgent.isHighRiskHSCode d.hsCode) = true <;>
        by_cases hu : (!(d.value == 0)
            && ECOWASOriginVerificationAgent.isUnderValued d) = true <;>
        by_cases hcert : ECOWASOriginVerificationAgent.hasCertificateOfOrigin d = true <;>
        simp_all [ECOWASOriginVerificationAgent.analyze, generateResult,
          ECOWASOriginVerificationAgent.verifyDocuments, h1, hc, hsp]
    | some sp =>
        by_cases hhs : (!(d.hsCode == "")
            && ECOWASOriginVerificationAgent.isHighRiskHSCode d.hsCode) = true <;>
        by_cases hu : (!(d.value == 0)
            && ECOWASOriginVerificationAgent.isUnderValued d) = true <;>
        by_cases hcert : ECOWASOriginVerificationAgent.hasCertificateOfOrigin d = true <;>
        simp_all [ECOWASOriginVerificationAgent.analyze, generateResult,
          ECOWASOriginVerificationAgent.verifyDocuments, h1, hc, hsp]

/-- Witness for C2 at a concrete China-origin ECOWAS claim. -/
theorem origin_fraud_flagged_critical_for_false_ecowas_claim_witness :
    originFraudWitnessDeclaration.ecowasOrigin = true ∧
    originFraudWitnessDeclaration.originCountry
      ∉ ECOWASOriginVerificationAgent.ecowasCountries ∧
    ((ECOWASOriginVerificationAgent.analyze originFraudWitnessDeclaration).hasViolation
        = true ∧
      ((ECOWASOriginVerificationAgent.analyze originFraudWitnessDeclaration).findings.filter
          (fun f => f.type == "origin-fraud")).map Finding.severity
        = [Severity.critical]) :=
  ⟨by decide, by decide,
   origin_fraud_flagged_critical_for_false_ecowas_claim originFraudWitnessDeclaration
     (by decide) (by decide)⟩

/-- C4: for every declaration whose HS code starts with none of the
petroleum prefixes 2709, 2710, 2711, 2713, the Petroleum ATG Analyzer
returns no violation, confidence `1.0`, risk score `0` and an empty
findings list, regardless of every other field. -/
theorem non_petroleum_declaration_is_atg_noop (d : Declaration)
    (h : ∀ code ∈ PetroleumATGAnalyzer.petroleumHSCodes,
        strStartsWith d.hsCode code = false) :
    (PetroleumATGAnalyzer.analyze d).hasViolation = false ∧
    (PetroleumATGAnalyzer.analyze d).confidence = 1 ∧
    (PetroleumATGAnalyzer.analyze d).riskScore = 0 ∧
    (PetroleumATGAnalyzer.analyze d).findings = [] := by
  have hp : PetroleumATGAnalyzer.isPetroleum d = false := by
    simp only [PetroleumATGAnalyzer.isPetroleum, List.any_eq_false]
    intro code hcode
    simp [h code hcode]
  refine ⟨?_, ?_, ?_, ?_⟩ <;>
    simp [PetroleumATGAnalyzer.analyze, hp, generateResult] <;> norm_num

/-- Witness for C4 at a concrete cotton declaration. -/
theorem non_petroleum_declaration_is_atg_noop_witness :
    (∀ code ∈ PetroleumATGAnalyzer.petroleumHSCodes,
        strStartsWith nonPetroleumWitnessDeclaration.hsCode code = false) ∧
    ((PetroleumATGAnalyzer.analyze nonPetroleumWitnessDeclaration).hasViolation = false ∧
      (PetroleumATGAnalyzer.analyze nonPetroleumWitnessDeclaration).confidence = 1 ∧
      (PetroleumATGAnalyzer.analyze nonPetroleumWitnessDeclaration).riskScore = 0 ∧
      (PetroleumATGAnalyzer.analyze nonPetroleumWitnessDeclaration).findings = []) :=
  ⟨by decide,
   non_petroleum_declaration_is_atg_noop nonPetroleumWitnessDeclaration (by decide)⟩

/-- C5: for every declaration, the Tax-Compliance Agent's reported
`totalTaxLiability` metadata equals
`value * (0.15 + 0.025 + 0.025 + 0.01)` plus `0` for an ECOWAS-origin
declaration and `value * 0.05` otherwise, and the computed liability does
not depend on the declaration's stated tax breakdown. -/
theorem total_tax_liability_formula (d : Declaration) :
    ((GhanaTaxComplianceAgent.analyze d).metadata.bind Metadata.totalTaxLiability)
      = some (d.value * (0.15 + 0.025 + 0.025 + 0.01)
          + (if d.ecowasOrigin then (0 : ℚ) else d.value * 0.05)) ∧
    (∀ t : Option TaxBreakdown,
      GhanaTaxComplianceAgent.calculateTotalTaxLiability { d with taxes := t }
        = GhanaTaxComplianceAgent.calculateTotalTaxLiability d) := by
  constructor
  · simp only [GhanaTaxComplianceAgent.analyze, generateResult,
      GhanaTaxComplianceAgent.calculateTotalTaxLiability, Option.bind]
    cases hd : d.ecowasOrigin <;> simp [hd] <;> ring_nf
  · intro t
    rfl

/-- C9: with every agent enabled in the configuration, `processDeclaration`
invokes the ECOWAS agent exactly when the declaration claims ECOWAS origin
or its origin country is in the ECOWAS set, the petroleum agent exactly
when the HS code starts with a petroleum prefix, the tax agent always, and
the TSA agent exactly when the declared value exceeds 1000. -/
theorem agent_selection_conditions (config : AuditExecutionConfig) (d : Declaration)
    (h1 : config.agentConfig.enableECOWASAgent = true)
    (h2 : config.agentConfig.enablePetroleumAgent = true)
    (h3 : config.agentConfig.enableTaxAgent = true)
    (h4 : config.agentConfig.enableTSAgent = true) :
    ("ecowas-origin" ∈ agentTypesRun config d ↔
        (d.ecowasOrigin = true ∨
          d.originCountry ∈ (["NG", "BJ", "CI", "BF", "ML", "NE", "SN", "SL", "TG"] : List String))) ∧
    ("petroleum-atg" ∈ agentTypesRun config d ↔
        (∃ code ∈ (["2709", "2710", "2711", "2713"] : List String),
          strStartsWith d.hsCode code = true)) ∧
    ("tax-compliance" ∈ agentTypesRun config d) ∧
    ("tsa-reconciliation" ∈ agentTypesRun config d ↔ d.value > 1000) := by
  simp [agentTypesRun, getEnabledAgents, h1, h2, h3, h4, shouldAgentRun,
    isEcowaSCountry, List.mem_filter]

/-- Witness for C9 at the default (all-enabled) configuration and a
concrete petroleum declaration. -/
theorem agent_selection_conditions_witness :
    defaultConfig.agentConfig.enableECOWASAgent = true ∧
    defaultConfig.agentConfig.enablePetroleumAgent = true ∧
    defaultConfig.agentConfig.enableTaxAgent = true ∧
    defaultConfig.agentConfig.enableTSAgent = true ∧
    (("ecowas-origin" ∈ agentTypesRun defaultConfig selectionWitnessDeclaration ↔
        (selectionWitnessDeclaration.ecowasOrigin = true ∨
          selectionWitnessDeclaration.originCountry
            ∈ (["NG", "BJ", "CI", "BF", "ML", "NE", "SN", "SL", "TG"] : List String))) ∧
      ("petroleum-atg" ∈ agentTypesRun defaultConfig selectionWitnessDeclaration ↔
        (∃ code ∈ (["2709", "2710", "2711", "2713"] : List String),
          strStartsWith selectionWitnessDeclaration.hsCode code = true)) ∧
      ("tax-compliance" ∈ agentTypesRun defaultConfig selectionWitnessDeclaration) ∧
      ("tsa-reconciliation" ∈ agentTypesRun defaultConfig selectionWitnessDeclaration ↔
        selectionWitnessDeclaration.value > 1000)) :=
  ⟨by decide, by decide, by decide, by decide,
   agent_selection_conditions defaultConfig selectionWitnessDeclaration
     (by decide) (by decide) (by decide) (by decide)⟩

/-- C10: for every declaration with no ECOWAS claim and no
certificate-of-origin document, the ECOWAS Origin Verification Agent
reports no violation while its findings nevertheless contain a
`missing-document` Finding and its risk score is 10: a non-empty findings
list with a positive risk score does not imply `hasViolation`. -/
theorem missing_certificate_scores_without_violation (d : Declaration)
    (h1 : d.ecowasOrigin = false)
    (h2 : ECOWASOriginVerificationAgent.hasCertificateOfOrigin d = false) :
    (ECOWASOriginVerificationAgent.analyze d).hasViolation = false ∧
    (ECOWASOriginVerificationAgent.analyze d).findings.any
        (fun f => f.type == "missing-document") = true ∧
    (ECOWASOriginVerificationAgent.analyze d).riskScore = 10 := by
  refine ⟨?_, ?_, ?_⟩
  · simp [ECOWASOriginVerificationAgent.analyze, generateResult,
      ECOWASOriginVerificationAgent.verifyDocuments, h1, h2]
  · simp [ECOWASOriginVerificationAgent.analyze, generateResult,
      ECOWASOriginVerificationAgent.verifyDocuments, h1, h2]
  · simp [ECOWASOriginVerificationAgent.analyze, generateResult,
      ECOWASOriginVerificationAgent.verifyDocuments, h1, h2]
    norm_num [min_def]

/-- Witness for C10 at a concrete declaration without documents. -/
theorem missing_certificate_scores_without_violation_witness :
    missingDocumentWitnessDeclaration.ecowasOrigin = false ∧
    ECOWASOriginVerificationAgent.hasCertificateOfOrigin
        missingDocumentWitnessDeclaration = false ∧
    ((ECOWASOriginVerificationAgent.analyze missingDocumentWitnessDeclaration).hasViolation
        = false ∧
      (ECOWASOriginVerificationAgent.analyze missingDocumentWitnessDeclaration).findings.any
          (fun f => f.type == "missing-document") = true ∧
      (ECOWASOriginVerificationAgent.analyze missingDocumentWitnessDeclaration).riskScore
        = 10) :=
  ⟨by decide, by decide,
   missing_certificate_scores_without_violation missingDocumentWitnessDeclaration
     (by decide) (by decide)⟩

/-- C3, code evaluation at the failing input: an agent result with numeric
`riskScore = 85` is bucketed into `low`, not `critical`, because the
source reads the absent `riskLevel` property (line 2525) instead of the
schema's `riskScore`, and a JS comparison against `undefined` is always
false. -/
theorem risk_distribution_ignores_risk_score :
    riskScore85Result.riskScore = 85 ∧
    (calculateGhanaMetrics [riskScore85Result]).riskDistribution
      = { low := 1, medium := 0, high := 0, critical := 0 } := by
  constructor
  · norm_num [riskScore85Result]
  · decide

/-- C8, code evaluation at the failing input: a `cancelExecution` call
against a running execution sets `cancelled`, and the run's unconditional
completion step afterwards overwrites the terminal `cancelled` status with
`completed` — the execution's status trace is
running, cancelled, completed. `cancelExecution` itself flips only a
running execution. -/
theorem cancelled_status_overwritten_by_completion :
    statusTrace [StatusEvent.cancel, StatusEvent.finish]
      = [ExecStatus.running, ExecStatus.cancelled, ExecStatus.completed] ∧
    cancelExecution ExecStatus.running = (ExecStatus.cancelled, true) ∧
    applyStatusEvent ExecStatus.cancelled StatusEvent.finish = ExecStatus.completed := by
  decide

/-- C6, counterexample to the claim as stated: against
`counterexampleRulePack`, the declaration accumulates the rule-score 30
exactly as the claim describes, and 30 meets the 25-point risk-score
threshold of the active first rule, so the claim's criterion marks a
violation — but `evaluateDeclaration` returns `hasViolation = false`,
because it compares each rule's threshold against the running score at
that rule (0 at the first rule), not the final score. -/
theorem rule_violation_final_score_counterexample :
    claimedScore counterexampleRulePack counterexampleDeclaration = 30 ∧
    claimedHasViolation counterexampleRulePack counterexampleDeclaration = true ∧
    (evaluateDeclaration counterexampleRulePack counterexampleDeclaration).2 = false ∧
    (evaluateDeclaration counterexampleRulePack counterexampleDeclaration).1 = 30 := by
  refine ⟨?_, ?_, ?_, ?_⟩ <;>
    simp +decide [claimedScore, claimedHasViolation, evaluateDeclaration, evalStep,
      ruleContribution, ruleHSCodeScore, ruleValueScore, ruleCountryScore, ruleSectorScore,
      removeFirstStar, removeFirstStarAux, strStartsWith,
      counterexampleRulePack, counterexampleDeclaration, thresholdRule, petroleumMatchRule] <;>
    norm_num

/-- Characterisation of the fold of `evalStep` from an arbitrary starting
state: the score grows by the contributions of the active rules, and a
violation is flagged exactly per the running-score criterion. -/
theorem evalStep_foldl (d : Declaration) (rules : List GhanaRule) (s0 : ℚ) (h0 : Bool) :
    rules.foldl (evalStep d) (s0, h0)
      = (s0 + ((rules.filter (fun rule => rule.isActive)).map (ruleContribution d)).sum,
         h0 || runningViolation d s0 rules) := by
  induction rules generalizing s0 h0 with
  | nil => simp [runningViolation]
  | cons r rs ih =>
      by_cases hr : r.isActive <;>
        simp [evalStep, runningViolation, hr, ih, add_assoc, Bool.or_assoc]

/-- C6 as amended: for every rule pack and declaration, the simulation
score is the sum over active rules of the claimed contributions (+20 HS
match, +15 present non-zero value threshold above the value, +30 failed
ECOWAS country check, +10 sector match), and the declaration is marked as
violating if and only if at some active rule with a present, non-zero
risk-score threshold the score accumulated through the rules up to and
including that rule meets or exceeds that threshold. -/
theorem evaluate_declaration_running_score_characterisation
    (rulePack : RulePack) (d : Declaration) :
    evaluateDeclaration rulePack d
      = (((rulePack.rules.filter (fun rule => rule.isActive)).map (ruleContribution d)).sum,
         runningViolation d 0 rulePack.rules) := by
  unfold evaluateDeclaration
  rw [evalStep_foldl]
  simp

end PCA
